import Mathlib

/-!
Shallow embedding of the rigid-body physics core of bevy-physics-weekend
(src/physics/src/scene.rs and src/physics/src/constraints/constraint_penetration.rs).

Scalars are modelled by the rationals.  The one operation of the source that
leaves the rationals, the square root inside glam Vec3::normalize_or_zero,
is abstracted as an explicit function parameter named sq; every theorem
quantifies over it, and concrete witnesses instantiate it with a function
that is exact on the perfect squares they touch.

The body kinematic methods (body.rs) and ConstraintConfig::apply_impulses
(constraints/mod.rs) are code of this repository that is not under src/;
they are modelled from the spec, and each such definition carries a doc
comment starting with "Modelled from the spec:".
-/

/-- Three-component vector over the rationals, mirroring glam Vec3. -/
structure V3 where
  x : ℚ
  y : ℚ
  z : ℚ
  deriving DecidableEq, Repr

namespace V3

def zero : V3 := ⟨0, 0, 0⟩

instance : Zero V3 := ⟨zero⟩

def add (a b : V3) : V3 := ⟨a.x + b.x, a.y + b.y, a.z + b.z⟩

instance : Add V3 := ⟨add⟩

def sub (a b : V3) : V3 := ⟨a.x - b.x, a.y - b.y, a.z - b.z⟩

instance : Sub V3 := ⟨sub⟩

def neg (a : V3) : V3 := ⟨-a.x, -a.y, -a.z⟩

instance : Neg V3 := ⟨neg⟩

def smul (q : ℚ) (a : V3) : V3 := ⟨q * a.x, q * a.y, q * a.z⟩

instance : SMul ℚ V3 := ⟨smul⟩

/-- Dot product. -/
def dot (a b : V3) : ℚ := a.x * b.x + a.y * b.y + a.z * b.z

/-- Cross product. -/
def cross (a b : V3) : V3 :=
  ⟨a.y * b.z - a.z * b.y, a.z * b.x - a.x * b.z, a.x * b.y - a.y * b.x⟩

end V3

/-- Three-by-three matrix over the rationals, stored by rows (glam Mat3). -/
structure M3 where
  r0 : V3
  r1 : V3
  r2 : V3
  deriving DecidableEq, Repr

namespace M3

def zero : M3 := ⟨V3.zero, V3.zero, V3.zero⟩

def mulVec (m : M3) (v : V3) : V3 := ⟨m.r0.dot v, m.r1.dot v, m.r2.dot v⟩

def transpose (m : M3) : M3 :=
  ⟨⟨m.r0.x, m.r1.x, m.r2.x⟩, ⟨m.r0.y, m.r1.y, m.r2.y⟩, ⟨m.r0.z, m.r1.z, m.r2.z⟩⟩

def mul (m n : M3) : M3 :=
  let t := n.transpose
  ⟨⟨m.r0.dot t.r0, m.r0.dot t.r1, m.r0.dot t.r2⟩,
   ⟨m.r1.dot t.r0, m.r1.dot t.r1, m.r1.dot t.r2⟩,
   ⟨m.r2.dot t.r0, m.r2.dot t.r1, m.r2.dot t.r2⟩⟩

/-- Matrix with the three given column vectors. -/
def ofCols (c0 c1 c2 : V3) : M3 :=
  ⟨⟨c0.x, c1.x, c2.x⟩, ⟨c0.y, c1.y, c2.y⟩, ⟨c0.z, c1.z, c2.z⟩⟩

end M3

/-- Quaternion over the rationals, mirroring glam Quat (x, y, z imaginary, w real). -/
structure Quat where
  x : ℚ
  y : ℚ
  z : ℚ
  w : ℚ
  deriving DecidableEq, Repr

namespace Quat

def identity : Quat := ⟨0, 0, 0, 1⟩

/-- Rotation of a vector by a (unit) quaternion, the glam Mul of Quat and Vec3. -/
def rotate (q : Quat) (v : V3) : V3 :=
  let qv : V3 := ⟨q.x, q.y, q.z⟩
  ((q.w * q.w - qv.dot qv) • v) + ((2 * qv.dot v) • qv) + ((2 * q.w) • qv.cross v)

/-- Rotation matrix of a quaternion, by its action on the standard basis. -/
def rotMat (q : Quat) : M3 :=
  M3.ofCols (q.rotate ⟨1, 0, 0⟩) (q.rotate ⟨0, 1, 0⟩) (q.rotate ⟨0, 0, 1⟩)

end Quat

/-- Rigid body state.  The scene stores position, orientation, velocities,
inverse mass, elasticity, friction and a collision shape; the shape itself is
out of scope (spec section 1) and is represented here by the two quantities the
core reads from it: the local centre of mass and the local inverse inertia
tensor. -/
structure Body where
  position : V3
  orientation : Quat
  linear_velocity : V3
  angular_velocity : V3
  inv_mass : ℚ
  elasticity : ℚ
  friction : ℚ
  com_local : V3
  inv_inertia_local : M3
  deriving DecidableEq, Repr

namespace Body

/-- Modelled from the spec: Body::local_to_world (body.rs is not under src/);
spec section 6 names `local_to_world(point)` as the transform of a local-space
point into world space by the body transform (position and orientation). -/
def local_to_world (b : Body) (p : V3) : V3 := b.position + b.orientation.rotate p

/-- Modelled from the spec: Body::centre_of_mass_world (body.rs is not under
src/); the local centre of mass carried to world space. -/
def centre_of_mass_world (b : Body) : V3 := b.local_to_world b.com_local

/-- Modelled from the spec: Body::inv_intertia_tensor_world (body.rs is not
under src/); spec section 4.5 step 3 describes it as the world-space inverse
inertia tensor, the local tensor rotated by the current orientation. -/
def inv_intertia_tensor_world (b : Body) : M3 :=
  (b.orientation.rotMat.mul b.inv_inertia_local).mul b.orientation.rotMat.transpose

/-- Modelled from the spec: Body::has_infinite_mass (body.rs is not under
src/); the data model (spec section 3) uses inverse mass 0 for infinite mass. -/
def has_infinite_mass (b : Body) : Prop := b.inv_mass = 0

instance (b : Body) : Decidable b.has_infinite_mass :=
  inferInstanceAs (Decidable (b.inv_mass = 0))

/-- Modelled from the spec: Body::apply_impulse_linear (body.rs is not under
src/); adds the impulse scaled by inverse mass to the linear velocity, leaving
an infinite-mass body unchanged (spec section 8, static body invariance). -/
def apply_impulse_linear (b : Body) (impulse : V3) : Body :=
  if b.has_infinite_mass then b
  else { b with linear_velocity := b.linear_velocity + b.inv_mass • impulse }

/-- Modelled from the spec: Body::apply_impulse_angular (body.rs is not under
src/); adds the world inverse inertia tensor applied to the angular impulse to
the angular velocity, leaving an infinite-mass body unchanged. -/
def apply_impulse_angular (b : Body) (impulse : V3) : Body :=
  if b.has_infinite_mass then b
  else { b with angular_velocity :=
          b.angular_velocity + b.inv_intertia_tensor_world.mulVec impulse }

/-- Modelled from the spec: Body::apply_impulse (body.rs is not under src/);
spec section 6 names `apply_impulse(worldPoint, impulse)`: the linear part is
the impulse itself and the angular part is the torque of the impulse about the
centre of mass, with an infinite-mass body left unchanged. -/
def apply_impulse (b : Body) (point impulse : V3) : Body :=
  if b.has_infinite_mass then b
  else (b.apply_impulse_linear impulse).apply_impulse_angular
        ((point - b.centre_of_mass_world).cross impulse)

end Body

/-- Contact event produced by narrowphase (contact.rs is out of scope; the
fields are the ones scene.rs reads).  Handles are indices into the body list. -/
structure Contact where
  handle_a : Nat
  handle_b : Nat
  local_point_a : V3
  local_point_b : V3
  normal : V3
  time_of_impact : ℚ
  deriving DecidableEq, Repr

/-- Modelled from glam Vec3::normalize_or_zero (external collaborator): the
zero vector maps to zero, any other vector is scaled by the reciprocal of its
length.  The square root is abstracted as the parameter sq, since exact square
roots leave the rationals. -/
def normalize_or_zero (sq : ℚ → ℚ) (v : V3) : V3 :=
  if v = V3.zero then V3.zero else (sq (v.dot v))⁻¹ • v

namespace ResolveContact

/-- scene.rs line 93: world-space contact point on body A. -/
def point_on_a (c : Contact) (body_a : Body) : V3 := body_a.local_to_world c.local_point_a

/-- scene.rs line 94: world-space contact point on body B. -/
def point_on_b (c : Contact) (body_b : Body) : V3 := body_b.local_to_world c.local_point_b

/-- scene.rs line 101: contact-point offset from the centre of mass of A. -/
def ra (c : Contact) (body_a : Body) : V3 :=
  point_on_a c body_a - body_a.centre_of_mass_world

/-- scene.rs line 102: contact-point offset from the centre of mass of B. -/
def rb (c : Contact) (body_b : Body) : V3 :=
  point_on_b c body_b - body_b.centre_of_mass_world

/-- scene.rs lines 104-106: angular factor of the normal impulse denominator. -/
def angular_factor (c : Contact) (body_a body_b : Body) : ℚ :=
  (((body_a.inv_intertia_tensor_world.mulVec ((ra c body_a).cross c.normal)).cross (ra c body_a))
    + ((body_b.inv_intertia_tensor_world.mulVec ((rb c body_b).cross c.normal)).cross (rb c body_b))).dot
    c.normal

/-- scene.rs lines 109-113: relative velocity at the contact point, A minus B. -/
def vab (c : Contact) (body_a body_b : Body) : V3 :=
  (body_a.linear_velocity + body_a.angular_velocity.cross (ra c body_a))
    - (body_b.linear_velocity + body_b.angular_velocity.cross (rb c body_b))

/-- scene.rs line 114: sum of the inverse masses. -/
def total_inv_mass (body_a body_b : Body) : ℚ := body_a.inv_mass + body_b.inv_mass

/-- scene.rs lines 96, 115-116: closed-form normal impulse scalar. -/
def impulse_j (c : Contact) (body_a body_b : Body) : ℚ :=
  (1 + body_a.elasticity * body_b.elasticity) * (vab c body_a body_b).dot c.normal
    / (total_inv_mass body_a body_b + angular_factor c body_a body_b)

/-- scene.rs line 117: normal impulse vector. -/
def vec_impulse_j (c : Contact) (body_a body_b : Body) : V3 :=
  impulse_j c body_a body_b • c.normal

/-- scene.rs lines 126-129: tangential component of the relative velocity. -/
def vel_tan (c : Contact) (body_a body_b : Body) : V3 :=
  vab c body_a body_b - (c.normal.dot (vab c body_a body_b)) • c.normal

/-- scene.rs line 132: normalized tangent direction. -/
def rel_vel_tan (sq : ℚ → ℚ) (c : Contact) (body_a body_b : Body) : V3 :=
  normalize_or_zero sq (vel_tan c body_a body_b)

/-- scene.rs lines 134-136: angular factor along the tangent direction. -/
def tangential_inv_inertia (sq : ℚ → ℚ) (c : Contact) (body_a body_b : Body) : ℚ :=
  (((body_a.inv_intertia_tensor_world.mulVec
        ((ra c body_a).cross (rel_vel_tan sq c body_a body_b))).cross (ra c body_a))
    + ((body_b.inv_intertia_tensor_world.mulVec
        ((rb c body_b).cross (rel_vel_tan sq c body_a body_b))).cross (rb c body_b))).dot
    (rel_vel_tan sq c body_a body_b)

/-- scene.rs lines 139-140: kinetic friction impulse, the tangential velocity
scaled by the effective mass and the combined friction coefficient. -/
def impulse_friction (sq : ℚ → ℚ) (c : Contact) (body_a body_b : Body) : V3 :=
  ((1 / (total_inv_mass body_a body_b + tangential_inv_inertia sq c body_a body_b))
      * (body_a.friction * body_b.friction)) • vel_tan c body_a body_b

/-- scene.rs lines 142-144: apply the friction impulse with opposite signs. -/
def friction_stage (sq : ℚ → ℚ) (c : Contact) (body_a body_b : Body)
    (p : Body × Body) : Body × Body :=
  (p.1.apply_impulse (point_on_a c body_a) (-(impulse_friction sq c body_a body_b)),
   p.2.apply_impulse (point_on_b c body_b) (impulse_friction sq c body_a body_b))

/-- scene.rs lines 147-156: positional projection, performed exactly when the
time of impact is zero; each body moves by its inverse-mass share of the
separation vector. -/
def position_stage (c : Contact) (body_a body_b : Body) (p : Body × Body) : Body × Body :=
  if c.time_of_impact = 0 then
    let ds := point_on_b c body_b - point_on_a c body_a
    let rcp_total_inv_mass := 1 / total_inv_mass body_a body_b
    let t_a := body_a.inv_mass * rcp_total_inv_mass
    let t_b := body_b.inv_mass * rcp_total_inv_mass
    ({ p.1 with position := p.1.position + t_a • ds },
     { p.2 with position := p.2.position - t_b • ds })
  else p

/-- scene.rs lines 89-157, fn resolve_contact: normal impulse, then friction
impulse, then positional projection.  All intermediate quantities are computed
from the incoming body states, as in the source, where they are read before
any mutation. -/
def resolve_contact (sq : ℚ → ℚ) (c : Contact) (body_a body_b : Body) : Body × Body :=
  position_stage c body_a body_b
    (friction_stage sq c body_a body_b
      (body_a.apply_impulse (point_on_a c body_a) (-(vec_impulse_j c body_a body_b)),
       body_b.apply_impulse (point_on_b c body_b) (vec_impulse_j c body_a body_b)))

end ResolveContact

namespace Scene

/-- scene.rs lines 309-311: gravity impulse on one body during one step. -/
def gravity_impulse (body : Body) (delta_seconds : ℚ) : V3 :=
  (body.inv_mass⁻¹ * delta_seconds) • (⟨0, -10, 0⟩ : V3)

/-- scene.rs lines 304-313: the gravity phase of PhysicsScene::update, applied
to one body: finite-mass bodies receive the gravity impulse as a linear
impulse, infinite-mass bodies are skipped. -/
def gravity_step (body : Body) (delta_seconds : ℚ) : Body :=
  if ¬body.has_infinite_mass then
    body.apply_impulse_linear (gravity_impulse body delta_seconds)
  else body

/-- Default body used when a handle is out of range of the body list; its
inverse mass is zero, so an out-of-range handle behaves as an infinite-mass
body and its pairs are filtered out. -/
def default_body : Body :=
  ⟨V3.zero, Quat.identity, V3.zero, V3.zero, 0, 0, 0, V3.zero, M3.zero⟩

/-- scene.rs lines 320-333: one iteration of the narrowphase loop of
PhysicsScene::update.  The body arena is a list indexed by handles, the
narrowphase collaborator intersect_dynamic is the parameter intersect.  A pair
whose two bodies both have infinite mass is skipped before intersect is
queried; otherwise the contact intersect returns, if any, is collected. -/
def narrowphase_step (bodies : List Body)
    (intersect : Nat → Body → Nat → Body → ℚ → Option Contact)
    (delta_seconds : ℚ) (acc : List Contact) (pair : Nat × Nat) : List Contact :=
  let body_a := bodies.getD pair.1 default_body
  let body_b := bodies.getD pair.2 default_body
  if body_a.has_infinite_mass ∧ body_b.has_infinite_mass then acc
  else
    match intersect pair.1 body_a pair.2 body_b delta_seconds with
    | some contact => acc ++ [contact]
    | none => acc

/-- scene.rs lines 319-333: the narrowphase loop of PhysicsScene::update over
the broadphase pair list. -/
def narrowphase_contacts (bodies : List Body)
    (intersect : Nat → Body → Nat → Body → ℚ → Option Contact)
    (pairs : List (Nat × Nat)) (delta_seconds : ℚ) : List Contact :=
  pairs.foldl (narrowphase_step bodies intersect delta_seconds) []

/-- scene.rs lines 343-354: the ballistic sub-stepping loop over the sorted
times of impact.  Starting from the pair (previous deltas, accumulated time),
each contact contributes the delta contact_time = time_of_impact minus the
accumulated time, passed to body.update, and the accumulated time grows by
that delta. -/
def ballistic_fold (tois : List ℚ) : List ℚ × ℚ :=
  tois.foldl
    (fun acc t => (acc.1 ++ [t - acc.2], acc.2 + (t - acc.2)))
    ([], 0)

/-- scene.rs lines 343-362: the full list of integration deltas passed to
body.update during one step: one delta per contact, then the remaining time
delta_seconds minus the accumulated time, passed only when it is positive. -/
def step_deltas (tois : List ℚ) (delta_seconds : ℚ) : List ℚ :=
  let p := ballistic_fold tois
  let time_remaining := delta_seconds - p.2
  if 0 < time_remaining then p.1 ++ [time_remaining] else p.1

end Scene

/-- Twelve-component row of a constraint Jacobian, stored as its four
three-component blocks: columns 0-2 (linear, body A), 3-5 (angular, body A),
6-8 (linear, body B), 9-11 (angular, body B).  The source writes each block of
the row from one Vec3, three scalar entries at a time. -/
structure Row12 where
  la : V3
  aa : V3
  lb : V3
  ab : V3
  deriving DecidableEq, Repr

namespace Row12

def zero : Row12 := ⟨V3.zero, V3.zero, V3.zero, V3.zero⟩

end Row12

/-- The MatMN 3 12 Jacobian of the penetration constraint, stored by rows. -/
structure Mat3x12 where
  row0 : Row12
  row1 : Row12
  row2 : Row12
  deriving DecidableEq, Repr

namespace Mat3x12

def zero : Mat3x12 := ⟨Row12.zero, Row12.zero, Row12.zero⟩

/-- Transpose of the Jacobian applied to a three-component multiplier vector
(the VecN 3 of cached Lagrange multipliers, represented by V3): component i of
the result is the sum over rows r of J r i times lambda r, so each block of
the resulting twelve-vector is the multiplier-weighted sum of the row blocks. -/
def transposeMulVec (j : Mat3x12) (l : V3) : Row12 :=
  ⟨l.x • j.row0.la + l.y • j.row1.la + l.z • j.row2.la,
   l.x • j.row0.aa + l.y • j.row1.aa + l.z • j.row2.aa,
   l.x • j.row0.lb + l.y • j.row1.lb + l.z • j.row2.lb,
   l.x • j.row0.ab + l.y • j.row1.ab + l.z • j.row2.ab⟩

end Mat3x12

/-- Static linkage data of a constraint (constraints/mod.rs declaration, used
by scene.rs and constraint_penetration.rs). -/
structure ConstraintConfig where
  handle_a : Nat
  handle_b : Nat
  anchor_a : V3
  anchor_b : V3
  axis_a : V3
  axis_b : V3
  deriving DecidableEq, Repr

/-- Modelled from the spec: ConstraintConfig::apply_impulses
(constraints/mod.rs is not under src/); the warm start of spec section 4.3
applies the impulse vector Jt lambda to the two bodies, the twelve-vector
split into the linear and angular impulse of body A and of body B. -/
def apply_impulses (body_a body_b : Body) (impulses : Row12) : Body × Body :=
  ((body_a.apply_impulse_linear impulses.la).apply_impulse_angular impulses.aa,
   (body_b.apply_impulse_linear impulses.lb).apply_impulse_angular impulses.ab)

/-- Modelled from glam Vec3::any_orthonormal_pair (external collaborator),
the branchless orthonormal-basis construction of Duff and others, pivoting on
the sign of the z component; rational throughout for a unit input. -/
def any_orthonormal_pair (n : V3) : V3 × V3 :=
  let sign : ℚ := if 0 ≤ n.z then 1 else -1
  let a := -1 / (sign + n.z)
  let b := n.x * n.y * a
  (⟨1 + sign * n.x * n.x * a, sign * b, -sign * n.x⟩,
   ⟨b, sign + n.y * n.y * a, -n.y⟩)

/-- Mutable state of a penetration constraint
(constraint_penetration.rs lines 8-14). -/
structure ConstraintPenetration where
  jacobian : Mat3x12
  cached_lambda : V3
  normal : V3
  baumgarte : ℚ
  friction : ℚ
  deriving DecidableEq, Repr

namespace ConstraintPenetration

/-- constraint_penetration.rs lines 17-25: zero-initialised constraint. -/
def new : ConstraintPenetration := ⟨Mat3x12.zero, V3.zero, V3.zero, 0, 0⟩

/-- constraint_penetration.rs lines 44-137: the combined friction coefficient
computed by pre_solve. -/
def pre_solve_friction (body_a body_b : Body) : ℚ := body_a.friction * body_b.friction

/-- constraint_penetration.rs lines 54-137: the Jacobian built by pre_solve.
Row 0 always holds the normal constraint; rows 1 and 2 hold the two friction
rows exactly when the combined friction coefficient is positive, and stay at
the zero they were initialised to otherwise. -/
def pre_solve_jacobian (cp : ConstraintPenetration) (config : ConstraintConfig)
    (body_a body_b : Body) : Mat3x12 :=
  let world_anchor_a := body_a.local_to_world config.anchor_a
  let world_anchor_b := body_b.local_to_world config.anchor_b
  let ra := world_anchor_a - body_a.centre_of_mass_world
  let rb := world_anchor_b - body_b.centre_of_mass_world
  let uv := any_orthonormal_pair cp.normal
  let normal := body_a.orientation.rotate cp.normal
  let u := body_a.orientation.rotate uv.1
  let v := body_a.orientation.rotate uv.2
  let row0 : Row12 := ⟨-normal, ra.cross (-normal), normal, rb.cross normal⟩
  if 0 < pre_solve_friction body_a body_b then
    ⟨row0,
     ⟨-u, ra.cross (-u), u, rb.cross u⟩,
     ⟨-v, ra.cross (-v), v, rb.cross v⟩⟩
  else
    ⟨row0, Row12.zero, Row12.zero⟩

/-- constraint_penetration.rs lines 139-141: the warm-start impulse vector,
the transposed Jacobian applied to the cached Lagrange multipliers. -/
def warm_start_impulses (cp : ConstraintPenetration) (config : ConstraintConfig)
    (body_a body_b : Body) : Row12 :=
  (pre_solve_jacobian cp config body_a body_b).transposeMulVec cp.cached_lambda

/-- constraint_penetration.rs lines 143-147: the Baumgarte stabilization bias,
beta times the clamped-to-nonpositive separation (with slop) over the step
duration. -/
def pre_solve_baumgarte (cp : ConstraintPenetration) (config : ConstraintConfig)
    (body_a body_b : Body) (dt_sec : ℚ) : ℚ :=
  let world_anchor_a := body_a.local_to_world config.anchor_a
  let world_anchor_b := body_b.local_to_world config.anchor_b
  let normal := body_a.orientation.rotate cp.normal
  let c0 := (world_anchor_b - world_anchor_a).dot normal
  let c1 := min 0 (c0 + 0.02)
  let beta : ℚ := 0.25
  beta * c1 / dt_sec

/-- constraint_penetration.rs lines 29-148, ConstraintPenetration::pre_solve:
rebuild the Jacobian from the current transforms, apply the warm-start impulse
Jt lambda to the two bodies, and store the new friction coefficient and
Baumgarte bias.  The body arena access through the config handles is modelled
by passing the two referenced bodies and returning their updated states. -/
def pre_solve (cp : ConstraintPenetration) (config : ConstraintConfig)
    (body_a body_b : Body) (dt_sec : ℚ) : ConstraintPenetration × Body × Body :=
  let jacobian := pre_solve_jacobian cp config body_a body_b
  let p := apply_impulses body_a body_b (jacobian.transposeMulVec cp.cached_lambda)
  ({ cp with
      jacobian := jacobian,
      friction := pre_solve_friction body_a body_b,
      baumgarte := pre_solve_baumgarte cp config body_a body_b dt_sec },
   p.1, p.2)

end ConstraintPenetration

/-! Concrete example values used by the witnesses and the closed scenario
conjuncts: an identity inertia tensor, two overlapping unit-mass boxes at rest
(the positional-correction scenario of the spec), a static and a dynamic body,
a pair of bodies with purely tangential relative velocity and vanishing
angular terms (the friction-cone example), and square-root instantiations. -/

def M3.identity : M3 := ⟨⟨1, 0, 0⟩, ⟨0, 1, 0⟩, ⟨0, 0, 1⟩⟩

/-- Square root parameter that is never consulted on a nonzero value in the
places it is used (all tangential velocities there are zero or multiplied by
vanishing inertia terms). -/
def sq0 : ℚ → ℚ := fun _ => 0

/-- Square root parameter exact at the only value the friction-cone example
queries, the squared length 25 of the tangential velocity. -/
def sq25 : ℚ → ℚ := fun q => if q = 25 then 5 else 0

def scene_box_a : Body :=
  ⟨V3.zero, Quat.identity, V3.zero, V3.zero, 1, 1/2, 0, V3.zero, M3.identity⟩

def scene_box_b : Body :=
  ⟨⟨19/20, 0, 0⟩, Quat.identity, V3.zero, V3.zero, 1, 1/2, 0, V3.zero, M3.identity⟩

/-- Contact between the two overlapping boxes: surface points at local x
one-half and minus one-half, world separation along the x-axis is minus
one-twentieth, an overlap of five-hundredths; time of impact zero. -/
def scene_contact : Contact :=
  ⟨0, 1, ⟨1/2, 0, 0⟩, ⟨-(1/2), 0, 0⟩, ⟨1, 0, 0⟩, 0⟩

def static_box : Body :=
  ⟨V3.zero, Quat.identity, V3.zero, V3.zero, 0, 1/2, 1/2, V3.zero, M3.identity⟩

def dyn_box : Body :=
  ⟨⟨2, 0, 0⟩, Quat.identity, ⟨-1, 0, 0⟩, V3.zero, 1, 1/2, 1/2, V3.zero, M3.identity⟩

def static_contact : Contact :=
  ⟨0, 1, ⟨1, 0, 0⟩, ⟨-1, 0, 0⟩, ⟨1, 0, 0⟩, 0⟩

def cone_a : Body :=
  ⟨V3.zero, Quat.identity, ⟨0, 3, 4⟩, V3.zero, 1, 1/2, 1, V3.zero, M3.zero⟩

def cone_b : Body :=
  ⟨⟨2, 0, 0⟩, Quat.identity, V3.zero, V3.zero, 1, 1/2, 1, V3.zero, M3.zero⟩

def cone_contact : Contact :=
  ⟨0, 1, ⟨1, 0, 0⟩, ⟨-1, 0, 0⟩, ⟨1, 0, 0⟩, 1⟩

def bodies_ex : List Body := [static_box, dyn_box]

def pairs_ex : List (Nat × Nat) := [(0, 1)]

/-- Narrowphase collaborator for the witness: always reports a contact
stamped with the queried handles. -/
def intersect_ex : Nat → Body → Nat → Body → ℚ → Option Contact :=
  fun ha _ hb _ _ => some ⟨ha, hb, V3.zero, V3.zero, ⟨1, 0, 0⟩, 0⟩

def contact_ex : Contact := ⟨0, 1, V3.zero, V3.zero, ⟨1, 0, 0⟩, 0⟩

def tois_ex : List ℚ := [1/4, 1/2]

def config_ex : ConstraintConfig := ⟨0, 1, V3.zero, V3.zero, V3.zero, V3.zero⟩

/-! Helper lemmas about the vector algebra and the body operations. -/

theorem V3.zero_smul (v : V3) : (0 : ℚ) • v = V3.zero := by
  cases v with
  | mk x y z => simp [HSMul.hSMul, SMul.smul, V3.smul, V3.zero]

theorem V3.smul_zero (q : ℚ) : q • V3.zero = V3.zero := by
  simp [HSMul.hSMul, SMul.smul, V3.smul, V3.zero]

theorem V3.add_zero (v : V3) : v + V3.zero = v := by
  cases v with
  | mk x y z =>
      show V3.add ⟨x, y, z⟩ V3.zero = ⟨x, y, z⟩
      simp [V3.add, V3.zero]

theorem V3.sub_zero (v : V3) : v - V3.zero = v := by
  cases v with
  | mk x y z =>
      show V3.sub ⟨x, y, z⟩ V3.zero = ⟨x, y, z⟩
      simp [V3.sub, V3.zero]

theorem V3.dot_zero (v : V3) : v.dot V3.zero = 0 := by
  simp [V3.dot, V3.zero]

/-! Componentwise evaluation lemmas, used to evaluate the embedded operations
on concrete rational inputs. -/

theorem V3.zero_def : V3.zero = ⟨0, 0, 0⟩ := rfl

theorem V3.add_mk (a b c d e f : ℚ) :
    ((⟨a, b, c⟩ : V3) + (⟨d, e, f⟩ : V3)) = ⟨a + d, b + e, c + f⟩ := rfl

theorem V3.sub_mk (a b c d e f : ℚ) :
    ((⟨a, b, c⟩ : V3) - (⟨d, e, f⟩ : V3)) = ⟨a - d, b - e, c - f⟩ := rfl

theorem V3.neg_mk (a b c : ℚ) : (-(⟨a, b, c⟩ : V3)) = ⟨-a, -b, -c⟩ := rfl

theorem V3.smul_mk (q a b c : ℚ) : (q • (⟨a, b, c⟩ : V3)) = ⟨q * a, q * b, q * c⟩ := rfl

theorem V3.dot_mk (a b c d e f : ℚ) :
    V3.dot ⟨a, b, c⟩ ⟨d, e, f⟩ = a * d + b * e + c * f := rfl

theorem V3.cross_mk (a b c d e f : ℚ) :
    V3.cross ⟨a, b, c⟩ ⟨d, e, f⟩ = ⟨b * f - c * e, c * d - a * f, a * e - b * d⟩ := rfl

@[simp] theorem Body.apply_impulse_linear_position (b : Body) (i : V3) :
    (b.apply_impulse_linear i).position = b.position := by
  unfold Body.apply_impulse_linear; split <;> rfl

@[simp] theorem Body.apply_impulse_linear_orientation (b : Body) (i : V3) :
    (b.apply_impulse_linear i).orientation = b.orientation := by
  unfold Body.apply_impulse_linear; split <;> rfl

@[simp] theorem Body.apply_impulse_linear_com_local (b : Body) (i : V3) :
    (b.apply_impulse_linear i).com_local = b.com_local := by
  unfold Body.apply_impulse_linear; split <;> rfl

@[simp] theorem Body.apply_impulse_linear_friction (b : Body) (i : V3) :
    (b.apply_impulse_linear i).friction = b.friction := by
  unfold Body.apply_impulse_linear; split <;> rfl

@[simp] theorem Body.apply_impulse_linear_inv_mass (b : Body) (i : V3) :
    (b.apply_impulse_linear i).inv_mass = b.inv_mass := by
  unfold Body.apply_impulse_linear; split <;> rfl

@[simp] theorem Body.apply_impulse_angular_position (b : Body) (i : V3) :
    (b.apply_impulse_angular i).position = b.position := by
  unfold Body.apply_impulse_angular; split <;> rfl

@[simp] theorem Body.apply_impulse_angular_orientation (b : Body) (i : V3) :
    (b.apply_impulse_angular i).orientation = b.orientation := by
  unfold Body.apply_impulse_angular; split <;> rfl

@[simp] theorem Body.apply_impulse_angular_com_local (b : Body) (i : V3) :
    (b.apply_impulse_angular i).com_local = b.com_local := by
  unfold Body.apply_impulse_angular; split <;> rfl

@[simp] theorem Body.apply_impulse_angular_friction (b : Body) (i : V3) :
    (b.apply_impulse_angular i).friction = b.friction := by
  unfold Body.apply_impulse_angular; split <;> rfl

@[simp] theorem Body.apply_impulse_angular_inv_mass (b : Body) (i : V3) :
    (b.apply_impulse_angular i).inv_mass = b.inv_mass := by
  unfold Body.apply_impulse_angular; split <;> rfl

@[simp] theorem Body.apply_impulse_position (b : Body) (pt i : V3) :
    (b.apply_impulse pt i).position = b.position := by
  unfold Body.apply_impulse
  split
  · rfl
  · rw [Body.apply_impulse_angular_position, Body.apply_impulse_linear_position]

theorem Body.apply_impulse_infinite (b : Body) (pt i : V3) (h : b.inv_mass = 0) :
    b.apply_impulse pt i = b := by
  unfold Body.apply_impulse
  exact if_pos (show b.has_infinite_mass from h)

/-! Helper lemmas about the ballistic sub-stepping fold. -/

namespace Scene

/-- Accumulated time after the sub-stepping loop, from an arbitrary starting
state: it is the last time of impact, or the starting accumulator when there
is no contact. -/
theorem ballistic_go_snd (tois : List ℚ) :
    ∀ (l : List ℚ) (acc : ℚ),
      (tois.foldl (fun acc t => (acc.1 ++ [t - acc.2], acc.2 + (t - acc.2))) (l, acc)).2
        = tois.getLast?.getD acc := by
  induction tois with
  | nil => intro l acc; rfl
  | cons t ts ih =>
      intro l acc
      rw [List.foldl_cons]
      show (ts.foldl _ (l ++ [t - acc], acc + (t - acc))).2 = _
      rw [ih (l ++ [t - acc]) (acc + (t - acc))]
      have hacc : acc + (t - acc) = t := by ring
      rw [hacc]
      cases ts with
      | nil => rfl
      | cons t2 ts2 =>
          rw [List.getLast?_cons_cons,
            List.getLast?_eq_getLast (t2 :: ts2) (List.cons_ne_nil t2 ts2)]
          rfl

/-- Telescoping sum of the per-segment deltas produced by the sub-stepping
loop: the deltas add up to the advance of the accumulator. -/
theorem ballistic_go_sum (tois : List ℚ) :
    ∀ (l : List ℚ) (acc : ℚ),
      (tois.foldl (fun acc t => (acc.1 ++ [t - acc.2], acc.2 + (t - acc.2))) (l, acc)).1.sum
        = l.sum
          + ((tois.foldl (fun acc t => (acc.1 ++ [t - acc.2], acc.2 + (t - acc.2))) (l, acc)).2
              - acc) := by
  induction tois with
  | nil => intro l acc; simp
  | cons t ts ih =>
      intro l acc
      rw [List.foldl_cons]
      show (ts.foldl _ (l ++ [t - acc], acc + (t - acc))).1.sum
        = l.sum + ((ts.foldl _ (l ++ [t - acc], acc + (t - acc))).2 - acc)
      rw [ih (l ++ [t - acc]) (acc + (t - acc))]
      rw [List.sum_append]
      simp only [List.sum_cons, List.sum_nil]
      ring

end Scene

/-! Helper lemmas about the narrowphase loop. -/

namespace Scene

/-- Every contact collected by the narrowphase loop, when the narrowphase
collaborator stamps the contacts with the handles it was queried with, refers
to a pair of bodies that are not both of infinite mass. -/
theorem narrowphase_go_not_both_infinite (bodies : List Body)
    (intersect : Nat → Body → Nat → Body → ℚ → Option Contact) (dt : ℚ)
    (hI : ∀ ha a hb b ct, intersect ha a hb b dt = some ct →
            ct.handle_a = ha ∧ ct.handle_b = hb) :
    ∀ (pairs : List (Nat × Nat)) (acc : List Contact),
      (∀ ct ∈ acc,
        ¬((bodies.getD ct.handle_a default_body).has_infinite_mass ∧
          (bodies.getD ct.handle_b default_body).has_infinite_mass)) →
      ∀ ct ∈ pairs.foldl (narrowphase_step bodies intersect dt) acc,
        ¬((bodies.getD ct.handle_a default_body).has_infinite_mass ∧
          (bodies.getD ct.handle_b default_body).has_infinite_mass) := by
  intro pairs
  induction pairs with
  | nil => intro acc hacc ct hct; exact hacc ct hct
  | cons p ps ih =>
      intro acc hacc ct hct
      rw [List.foldl_cons] at hct
      refine ih (narrowphase_step bodies intersect dt acc p) ?_ ct hct
      intro ct2 hct2
      unfold narrowphase_step at hct2
      by_cases hskip :
          (bodies.getD p.1 default_body).has_infinite_mass ∧
            (bodies.getD p.2 default_body).has_infinite_mass
      · rw [if_pos hskip] at hct2
        exact hacc ct2 hct2
      · rw [if_neg hskip] at hct2
        cases hmatch : intersect p.1 (bodies.getD p.1 default_body) p.2
            (bodies.getD p.2 default_body) dt with
        | none =>
            rw [hmatch] at hct2
            exact hacc ct2 hct2
        | some ctNew =>
            rw [hmatch] at hct2
            rcases List.mem_append.mp hct2 with hold | hnew
            · exact hacc ct2 hold
            · have heq : ct2 = ctNew := List.mem_singleton.mp hnew
              subst heq
              obtain ⟨hha, hhb⟩ := hI p.1 (bodies.getD p.1 default_body) p.2
                (bodies.getD p.2 default_body) ct2 hmatch
              rw [hha, hhb]
              exact hskip

/-- The narrowphase loop gives the same contacts on the pair list as on the
pair list with the both-infinite-mass pairs removed: those pairs are skipped
before the narrowphase collaborator is queried. -/
theorem narrowphase_go_filter (bodies : List Body)
    (intersect : Nat → Body → Nat → Body → ℚ → Option Contact) (dt : ℚ) :
    ∀ (pairs : List (Nat × Nat)) (acc : List Contact),
      pairs.foldl (narrowphase_step bodies intersect dt) acc
        = (pairs.filter (fun p =>
              decide ¬((bodies.getD p.1 default_body).has_infinite_mass ∧
                (bodies.getD p.2 default_body).has_infinite_mass))).foldl
            (narrowphase_step bodies intersect dt) acc := by
  intro pairs
  induction pairs with
  | nil => intro acc; rfl
  | cons p ps ih =>
      intro acc
      rw [List.foldl_cons, ih (narrowphase_step bodies intersect dt acc p)]
      simp only [List.filter_cons]
      by_cases hskip :
          (bodies.getD p.1 default_body).has_infinite_mass ∧
            (bodies.getD p.2 default_body).has_infinite_mass
      · have hcond :
            (decide ¬((bodies.getD p.1 default_body).has_infinite_mass ∧
              (bodies.getD p.2 default_body).has_infinite_mass)) = false :=
          decide_eq_false (not_not_intro hskip)
        rw [hcond]
        have hstep : narrowphase_step bodies intersect dt acc p = acc := by
          unfold narrowphase_step
          exact if_pos hskip
        rw [hstep]
        simp only [Bool.false_eq_true, if_false]
      · have hcond :
            (decide ¬((bodies.getD p.1 default_body).has_infinite_mass ∧
              (bodies.getD p.2 default_body).has_infinite_mass)) = true :=
          decide_eq_true hskip
        rw [hcond]
        simp only [if_true]
        rw [List.foldl_cons]

/-- The inverse mass stored for any handle is nonnegative when every body of
the arena has nonnegative inverse mass: an out-of-range handle resolves to the
default body, whose inverse mass is zero. -/
theorem getD_inv_mass_nonneg (bodies : List Body)
    (hm : ∀ bd ∈ bodies, 0 ≤ bd.inv_mass) (i : Nat) :
    0 ≤ (bodies.getD i default_body).inv_mass := by
  by_cases h : i < bodies.length
  · rw [List.getD_eq_getElem bodies default_body h]
    exact hm _ (List.getElem_mem h)
  · rw [List.getD_eq_default bodies default_body (Nat.le_of_not_lt h)]
    exact le_refl 0

end Scene

/-! Helper lemmas about the penetration constraint pre_solve. -/

namespace ConstraintPenetration

/-- The body pair returned by pre_solve is the input pair with the warm-start
impulse vector applied through apply_impulses. -/
theorem pre_solve_bodies_eq (cp : ConstraintPenetration) (config : ConstraintConfig)
    (body_a body_b : Body) (dt_sec : ℚ) :
    (cp.pre_solve config body_a body_b dt_sec).2
      = apply_impulses body_a body_b (cp.warm_start_impulses config body_a body_b) := rfl

/-- The warm-start impulse vector is unchanged by a preceding pre_solve call:
the constraint state it reads (stored local normal and cached multipliers) is
not written by pre_solve, and the body state it reads (positions,
orientations, centres of mass, frictions) is untouched by the velocity-only
warm-start impulses. -/
theorem warm_start_impulses_stable (cp : ConstraintPenetration)
    (config : ConstraintConfig) (body_a body_b : Body) (dt_sec : ℚ) :
    ((cp.pre_solve config body_a body_b dt_sec).1).warm_start_impulses config
        ((cp.pre_solve config body_a body_b dt_sec).2.1)
        ((cp.pre_solve config body_a body_b dt_sec).2.2)
      = cp.warm_start_impulses config body_a body_b := by
  unfold ConstraintPenetration.pre_solve
  simp only [warm_start_impulses, pre_solve_jacobian, pre_solve_friction,
    apply_impulses, Body.local_to_world, Body.centre_of_mass_world,
    Body.apply_impulse_linear_position, Body.apply_impulse_linear_orientation,
    Body.apply_impulse_linear_com_local, Body.apply_impulse_linear_friction,
    Body.apply_impulse_angular_position, Body.apply_impulse_angular_orientation,
    Body.apply_impulse_angular_com_local, Body.apply_impulse_angular_friction]

end ConstraintPenetration


/-! Helper lemmas about the positions produced by the contact resolver. -/

namespace ResolveContact

/-- Position of body A after resolve_contact, in the scalar form of the
source: the inverse-mass share is inv_mass times the reciprocal total. -/
theorem resolve_contact_fst_position (sq : ℚ → ℚ) (c : Contact) (a b : Body) :
    (resolve_contact sq c a b).1.position
      = if c.time_of_impact = 0 then
          a.position + (a.inv_mass * (1 / total_inv_mass a b))
            • (point_on_b c b - point_on_a c a)
        else a.position := by
  unfold resolve_contact position_stage friction_stage
  by_cases hc : c.time_of_impact = 0
  · rw [if_pos hc, if_pos hc]
    simp [Body.apply_impulse_position]
  · rw [if_neg hc, if_neg hc]
    simp [Body.apply_impulse_position]

/-- Position of body B after resolve_contact, in the scalar form of the
source. -/
theorem resolve_contact_snd_position (sq : ℚ → ℚ) (c : Contact) (a b : Body) :
    (resolve_contact sq c a b).2.position
      = if c.time_of_impact = 0 then
          b.position - (b.inv_mass * (1 / total_inv_mass a b))
            • (point_on_b c b - point_on_a c a)
        else b.position := by
  unfold resolve_contact position_stage friction_stage
  by_cases hc : c.time_of_impact = 0
  · rw [if_pos hc, if_pos hc]
    simp [Body.apply_impulse_position]
  · rw [if_neg hc, if_neg hc]
    simp [Body.apply_impulse_position]

end ResolveContact

/-- C1: for every contact passed to the contact resolver, the normal impulse
scalar is j = (1+e) (vab . n) / (invMassA + invMassB + angularFactor), where e
is the product of the elasticities, vab the relative velocity at the contact
point (linear plus angular cross offset, body A minus body B), and
angularFactor the sum of the rotational contributions ((Iinv (r x n)) x r) . n
of the two bodies; the resolver applies the impulse minus j n to body A at its
contact point and plus j n to body B at its contact point, before the friction
and positional stages. -/
theorem claim1_normal_impulse (sq : ℚ → ℚ) (c : Contact) (a b : Body) :
    (ResolveContact.impulse_j c a b
      = (1 + a.elasticity * b.elasticity)
        * (((a.linear_velocity + a.angular_velocity.cross (ResolveContact.ra c a))
            - (b.linear_velocity + b.angular_velocity.cross (ResolveContact.rb c b))).dot
            c.normal)
        / (a.inv_mass + b.inv_mass
            + (((a.inv_intertia_tensor_world.mulVec
                  ((ResolveContact.ra c a).cross c.normal)).cross (ResolveContact.ra c a)
                + (b.inv_intertia_tensor_world.mulVec
                  ((ResolveContact.rb c b).cross c.normal)).cross (ResolveContact.rb c b)).dot
                c.normal)))
    ∧ ResolveContact.resolve_contact sq c a b
      = ResolveContact.position_stage c a b
          (ResolveContact.friction_stage sq c a b
            (a.apply_impulse (ResolveContact.point_on_a c a)
              (-(ResolveContact.impulse_j c a b • c.normal)),
             b.apply_impulse (ResolveContact.point_on_b c b)
              (ResolveContact.impulse_j c a b • c.normal))) :=
  ⟨rfl, rfl⟩

/-- C8: the friction impulse is the tangential component of the relative
contact velocity (the relative velocity minus its projection onto the normal)
scaled by the effective mass, the reciprocal of invMassA plus invMassB plus
the tangential angular factor, and by the combined friction coefficient; the
tangent direction is the normalize-or-zero of the tangential velocity; the
impulse is applied with opposite signs to the two bodies at their contact
points; and its magnitude is not bounded by the normal impulse magnitude: in
the cone example the squared friction impulse strictly exceeds the squared
friction-cone bound. -/
theorem claim8_friction_impulse_unclamped (sq : ℚ → ℚ) (c : Contact) (a b : Body) :
    (ResolveContact.rel_vel_tan sq c a b
      = normalize_or_zero sq
          (ResolveContact.vab c a b
            - (c.normal.dot (ResolveContact.vab c a b)) • c.normal))
    ∧ (ResolveContact.impulse_friction sq c a b
      = ((1 / (a.inv_mass + b.inv_mass + ResolveContact.tangential_inv_inertia sq c a b))
          * (a.friction * b.friction))
          • (ResolveContact.vab c a b
              - (c.normal.dot (ResolveContact.vab c a b)) • c.normal))
    ∧ (ResolveContact.resolve_contact sq c a b
      = ResolveContact.position_stage c a b
          ((a.apply_impulse (ResolveContact.point_on_a c a)
              (-(ResolveContact.vec_impulse_j c a b))).apply_impulse
            (ResolveContact.point_on_a c a) (-(ResolveContact.impulse_friction sq c a b)),
           (b.apply_impulse (ResolveContact.point_on_b c b)
              (ResolveContact.vec_impulse_j c a b)).apply_impulse
            (ResolveContact.point_on_b c b) (ResolveContact.impulse_friction sq c a b)))
    ∧ (ResolveContact.impulse_friction sq25 cone_contact cone_a cone_b).dot
        (ResolveContact.impulse_friction sq25 cone_contact cone_a cone_b)
      > (cone_a.friction * cone_b.friction) ^ 2
          * (ResolveContact.impulse_j cone_contact cone_a cone_b) ^ 2
          * (cone_contact.normal.dot cone_contact.normal) :=
  ⟨rfl, rfl, rfl, by
    norm_num [ResolveContact.impulse_friction, ResolveContact.impulse_j,
      ResolveContact.tangential_inv_inertia, ResolveContact.rel_vel_tan,
      ResolveContact.vel_tan, ResolveContact.vab, ResolveContact.total_inv_mass,
      ResolveContact.angular_factor, ResolveContact.ra, ResolveContact.rb,
      ResolveContact.point_on_a, ResolveContact.point_on_b, Body.local_to_world,
      Body.centre_of_mass_world, Body.inv_intertia_tensor_world, Quat.rotate,
      Quat.rotMat, M3.mulVec, M3.mul, M3.transpose, M3.ofCols, M3.zero, M3.identity,
      normalize_or_zero, cone_a, cone_b, cone_contact, sq25, V3.add_mk, V3.sub_mk,
      V3.neg_mk, V3.smul_mk, V3.dot_mk, V3.cross_mk, V3.zero_def]⟩

/-- C10: when the tangential component of the relative contact velocity is the
zero vector, the normalized tangent direction is zero (normalize_or_zero takes
its zero branch, no division by a zero norm), the tangential angular factor is
zero, and the friction impulse is exactly the zero vector. -/
theorem claim10_zero_tangential_velocity (sq : ℚ → ℚ) (c : Contact) (a b : Body)
    (h : ResolveContact.vel_tan c a b = V3.zero) :
    ResolveContact.rel_vel_tan sq c a b = V3.zero
    ∧ ResolveContact.tangential_inv_inertia sq c a b = 0
    ∧ ResolveContact.impulse_friction sq c a b = V3.zero := by
  have h1 : ResolveContact.rel_vel_tan sq c a b = V3.zero := by
    unfold ResolveContact.rel_vel_tan normalize_or_zero
    rw [h]
    simp
  refine ⟨h1, ?_, ?_⟩
  · unfold ResolveContact.tangential_inv_inertia
    rw [h1]
    exact V3.dot_zero _
  · unfold ResolveContact.impulse_friction
    rw [h]
    exact V3.smul_zero _

/-- The overlapping resting boxes have zero tangential relative velocity at
their contact. -/
theorem scene_vel_tan_zero :
    ResolveContact.vel_tan scene_contact scene_box_a scene_box_b = V3.zero := by
  norm_num [ResolveContact.vel_tan, ResolveContact.vab, ResolveContact.ra,
    ResolveContact.rb, ResolveContact.point_on_a, ResolveContact.point_on_b,
    Body.local_to_world, Body.centre_of_mass_world, Quat.rotate, Quat.identity,
    scene_contact, scene_box_a, scene_box_b, V3.add_mk, V3.sub_mk, V3.neg_mk,
    V3.smul_mk, V3.dot_mk, V3.cross_mk, V3.zero_def]

/-- C10 witness: the overlapping resting boxes have zero tangential relative
velocity, and the friction impulse the resolver computes for them is zero. -/
theorem claim10_witness :
    ResolveContact.vel_tan scene_contact scene_box_a scene_box_b = V3.zero
    ∧ ResolveContact.impulse_friction sq0 scene_contact scene_box_a scene_box_b = V3.zero :=
  ⟨scene_vel_tan_zero,
   (claim10_zero_tangential_velocity sq0 scene_contact scene_box_a scene_box_b
      scene_vel_tan_zero).2.2⟩

set_option maxHeartbeats 2000000 in
/-- C3: the contact resolver performs a positional correction exactly when the
time of impact is zero: body A moves by the inverse-mass share
invMassA/(invMassA+invMassB) of the separation vector ds, body B by the
opposite of its share, and otherwise positions are unchanged; a body with
inverse mass zero receives zero correction; and in the spec scenario of two
unit-mass boxes overlapping by five-hundredths along the x-axis at rest, one
resolver call shifts the boxes by equal and opposite twenty-five-thousandths
along x with no change of the linear velocities. -/
theorem claim3_positional_correction (sq : ℚ → ℚ) (c : Contact) (a b : Body) :
    ((ResolveContact.resolve_contact sq c a b).1.position
      = if c.time_of_impact = 0 then
          a.position + (a.inv_mass / (a.inv_mass + b.inv_mass))
            • (ResolveContact.point_on_b c b - ResolveContact.point_on_a c a)
        else a.position)
    ∧ ((ResolveContact.resolve_contact sq c a b).2.position
      = if c.time_of_impact = 0 then
          b.position - (b.inv_mass / (a.inv_mass + b.inv_mass))
            • (ResolveContact.point_on_b c b - ResolveContact.point_on_a c a)
        else b.position)
    ∧ (a.inv_mass = 0 → (ResolveContact.resolve_contact sq c a b).1.position = a.position)
    ∧ ((ResolveContact.resolve_contact sq0 scene_contact scene_box_a scene_box_b).1.position
        - scene_box_a.position = ⟨-(1/40), 0, 0⟩)
    ∧ ((ResolveContact.resolve_contact sq0 scene_contact scene_box_a scene_box_b).2.position
        - scene_box_b.position = ⟨1/40, 0, 0⟩)
    ∧ ((ResolveContact.resolve_contact sq0 scene_contact scene_box_a scene_box_b).1.linear_velocity
        = scene_box_a.linear_velocity)
    ∧ ((ResolveContact.resolve_contact sq0 scene_contact scene_box_a scene_box_b).2.linear_velocity
        = scene_box_b.linear_velocity) := by
  have h1 := ResolveContact.resolve_contact_fst_position sq c a b
  have h2 := ResolveContact.resolve_contact_snd_position sq c a b
  refine ⟨?_, ?_, ?_, ?_, ?_, ?_, ?_⟩
  · rw [h1]
    unfold ResolveContact.total_inv_mass
    by_cases hc : c.time_of_impact = 0
    · rw [if_pos hc, if_pos hc, mul_one_div]
    · rw [if_neg hc, if_neg hc]
  · rw [h2]
    unfold ResolveContact.total_inv_mass
    by_cases hc : c.time_of_impact = 0
    · rw [if_pos hc, if_pos hc, mul_one_div]
    · rw [if_neg hc, if_neg hc]
  · intro ha
    rw [h1]
    by_cases hc : c.time_of_impact = 0
    · rw [if_pos hc, ha, zero_mul, V3.zero_smul, V3.add_zero]
    · rw [if_neg hc]
  · norm_num [ResolveContact.resolve_contact_fst_position, ResolveContact.total_inv_mass,
      ResolveContact.point_on_a, ResolveContact.point_on_b, Body.local_to_world,
      Quat.rotate, Quat.identity, scene_contact, scene_box_a, scene_box_b,
      V3.add_mk, V3.sub_mk, V3.neg_mk, V3.smul_mk, V3.dot_mk, V3.cross_mk, V3.zero_def]
  · norm_num [ResolveContact.resolve_contact_snd_position, ResolveContact.total_inv_mass,
      ResolveContact.point_on_a, ResolveContact.point_on_b, Body.local_to_world,
      Quat.rotate, Quat.identity, scene_contact, scene_box_a, scene_box_b,
      V3.add_mk, V3.sub_mk, V3.neg_mk, V3.smul_mk, V3.dot_mk, V3.cross_mk, V3.zero_def]
  · norm_num [ResolveContact.resolve_contact, ResolveContact.position_stage,
      ResolveContact.friction_stage, ResolveContact.impulse_friction,
      ResolveContact.tangential_inv_inertia, ResolveContact.rel_vel_tan,
      ResolveContact.vel_tan, ResolveContact.vab, ResolveContact.vec_impulse_j,
      ResolveContact.impulse_j, ResolveContact.angular_factor,
      ResolveContact.total_inv_mass, ResolveContact.ra, ResolveContact.rb,
      ResolveContact.point_on_a, ResolveContact.point_on_b, Body.local_to_world,
      Body.centre_of_mass_world, Body.inv_intertia_tensor_world, Body.apply_impulse,
      Body.apply_impulse_linear, Body.apply_impulse_angular, Body.has_infinite_mass,
      Quat.rotate, Quat.rotMat, Quat.identity, M3.mulVec, M3.mul, M3.transpose,
      M3.ofCols, M3.identity, normalize_or_zero, scene_contact, scene_box_a,
      scene_box_b, sq0, V3.add_mk, V3.sub_mk, V3.neg_mk, V3.smul_mk, V3.dot_mk,
      V3.cross_mk, V3.zero_def]
  · norm_num [ResolveContact.resolve_contact, ResolveContact.position_stage,
      ResolveContact.friction_stage, ResolveContact.impulse_friction,
      ResolveContact.tangential_inv_inertia, ResolveContact.rel_vel_tan,
      ResolveContact.vel_tan, ResolveContact.vab, ResolveContact.vec_impulse_j,
      ResolveContact.impulse_j, ResolveContact.angular_factor,
      ResolveContact.total_inv_mass, ResolveContact.ra, ResolveContact.rb,
      ResolveContact.point_on_a, ResolveContact.point_on_b, Body.local_to_world,
      Body.centre_of_mass_world, Body.inv_intertia_tensor_world, Body.apply_impulse,
      Body.apply_impulse_linear, Body.apply_impulse_angular, Body.has_infinite_mass,
      Quat.rotate, Quat.rotMat, Quat.identity, M3.mulVec, M3.mul, M3.transpose,
      M3.ofCols, M3.identity, normalize_or_zero, scene_contact, scene_box_a,
      scene_box_b, sq0, V3.add_mk, V3.sub_mk, V3.neg_mk, V3.smul_mk, V3.dot_mk,
      V3.cross_mk, V3.zero_def]

/-- C3 witness: the static box of the static contact pair receives zero
positional correction from the resolver. -/
theorem claim3_witness :
    static_box.inv_mass = 0
    ∧ (ResolveContact.resolve_contact sq0 static_contact static_box dyn_box).1.position
        = static_box.position :=
  ⟨rfl, (claim3_positional_correction sq0 static_contact static_box dyn_box).2.2.1 rfl⟩

/-- C9: a body with inverse mass zero is left unchanged by every operation of
a simulation step: the gravity phase skips infinite-mass bodies, impulses
(point impulses, linear impulses and angular impulses) leave it unchanged, and
the contact resolver, including its positional correction whose proportional
share inv_mass over total inverse mass vanishes, returns it unchanged whether
it is body A or body B of the contact. -/
theorem claim9_static_body_invariance :
    (∀ (bd : Body) (dt : ℚ), bd.inv_mass = 0 → Scene.gravity_step bd dt = bd)
    ∧ (∀ (bd : Body) (pt imp : V3), bd.inv_mass = 0 → bd.apply_impulse pt imp = bd)
    ∧ (∀ (bd : Body) (imp : V3), bd.inv_mass = 0 → bd.apply_impulse_linear imp = bd)
    ∧ (∀ (bd : Body) (imp : V3), bd.inv_mass = 0 → bd.apply_impulse_angular imp = bd)
    ∧ (∀ (sq : ℚ → ℚ) (c : Contact) (a b : Body), a.inv_mass = 0 →
        (ResolveContact.resolve_contact sq c a b).1 = a)
    ∧ (∀ (sq : ℚ → ℚ) (c : Contact) (a b : Body), b.inv_mass = 0 →
        (ResolveContact.resolve_contact sq c a b).2 = b) := by
  have hlin : ∀ (bd : Body) (imp : V3), bd.inv_mass = 0 → bd.apply_impulse_linear imp = bd := by
    intro bd imp h
    unfold Body.apply_impulse_linear
    exact if_pos (show bd.has_infinite_mass from h)
  have hang : ∀ (bd : Body) (imp : V3), bd.inv_mass = 0 → bd.apply_impulse_angular imp = bd := by
    intro bd imp h
    unfold Body.apply_impulse_angular
    exact if_pos (show bd.has_infinite_mass from h)
  refine ⟨?_, ?_, hlin, hang, ?_, ?_⟩
  · intro bd dt h
    unfold Scene.gravity_step
    exact if_neg (not_not_intro (show bd.has_infinite_mass from h))
  · intro bd pt imp h
    exact Body.apply_impulse_infinite bd pt imp h
  · intro sq c a b ha
    unfold ResolveContact.resolve_contact ResolveContact.friction_stage
      ResolveContact.position_stage
    rw [Body.apply_impulse_infinite a _ _ ha, Body.apply_impulse_infinite a _ _ ha]
    by_cases hc : c.time_of_impact = 0
    · rw [if_pos hc]
      show { a with position := a.position + (a.inv_mass * _) • _ } = a
      have hta : a.inv_mass * (1 / ResolveContact.total_inv_mass a b) = 0 := by
        rw [ha, zero_mul]
      rw [hta, V3.zero_smul, V3.add_zero]
    · rw [if_neg hc]
  · intro sq c a b hb
    unfold ResolveContact.resolve_contact ResolveContact.friction_stage
      ResolveContact.position_stage
    rw [Body.apply_impulse_infinite b _ _ hb, Body.apply_impulse_infinite b _ _ hb]
    by_cases hc : c.time_of_impact = 0
    · rw [if_pos hc]
      show { b with position := b.position - (b.inv_mass * _) • _ } = b
      have htb : b.inv_mass * (1 / ResolveContact.total_inv_mass a b) = 0 := by
        rw [hb, zero_mul]
      rw [htb, V3.zero_smul, V3.sub_zero]
    · rw [if_neg hc]

/-- C9 witness: the static box is unchanged by the gravity phase, by a point
impulse, and by the contact resolver. -/
theorem claim9_witness :
    Scene.gravity_step static_box 1 = static_box
    ∧ static_box.apply_impulse ⟨1, 0, 0⟩ ⟨0, 1, 0⟩ = static_box
    ∧ (ResolveContact.resolve_contact sq0 static_contact static_box dyn_box).1 = static_box :=
  ⟨claim9_static_body_invariance.1 static_box 1 rfl,
   claim9_static_body_invariance.2.1 static_box ⟨1, 0, 0⟩ ⟨0, 1, 0⟩ rfl,
   claim9_static_body_invariance.2.2.2.2.1 sq0 static_contact static_box dyn_box rfl⟩

/-- C2: for a sorted sequence of contact times of impact t1 up to tn with tn
at most dt, the per-segment integration deltas passed to body.update plus the
final remainder update sum exactly to dt, and after processing all contacts
the accumulated time equals tn (so the remaining update advances by dt minus
tn). -/
theorem claim2_substep_time_conservation (tois : List ℚ) (dt : ℚ)
    (hsorted : List.Chain' (· ≤ ·) tois) (hne : tois ≠ [])
    (hlast : tois.getLast hne ≤ dt) :
    (Scene.step_deltas tois dt).sum = dt
    ∧ (Scene.ballistic_fold tois).2 = tois.getLast hne := by
  have hsnd : (Scene.ballistic_fold tois).2 = tois.getLast?.getD 0 :=
    Scene.ballistic_go_snd tois [] 0
  have hlastsome : tois.getLast? = some (tois.getLast hne) :=
    List.getLast?_eq_getLast tois hne
  have h2 : (Scene.ballistic_fold tois).2 = tois.getLast hne := by
    rw [hsnd, hlastsome]
    rfl
  refine ⟨?_, h2⟩
  have hsum : (Scene.ballistic_fold tois).1.sum = (Scene.ballistic_fold tois).2 := by
    have h := Scene.ballistic_go_sum tois [] 0
    rw [List.sum_nil, zero_add, sub_zero] at h
    exact h
  simp only [Scene.step_deltas]
  by_cases hrem : 0 < dt - (Scene.ballistic_fold tois).2
  · rw [if_pos hrem, List.sum_append, hsum]
    simp only [List.sum_cons, List.sum_nil]
    ring
  · rw [if_neg hrem, hsum, h2]
    have hge : dt - tois.getLast hne ≤ 0 := le_of_not_lt (by rw [← h2] at hlast ⊢; exact hrem)
    have : dt ≤ tois.getLast hne := by linarith
    linarith

/-- C2 witness: with contact times one-quarter and one-half and step duration
one, the deltas are one-quarter, one-quarter and one-half, summing to one, and
the accumulated time after the loop is one-half. -/
theorem claim2_witness :
    (Scene.step_deltas tois_ex 1).sum = 1 ∧ (Scene.ballistic_fold tois_ex).2 = 1/2 := by
  have hne : tois_ex ≠ [] := by simp [tois_ex]
  have hch : List.Chain' (· ≤ ·) tois_ex := by
    norm_num [tois_ex, List.chain'_cons, List.chain'_singleton]
  have hlast : tois_ex.getLast hne ≤ 1 := by
    norm_num [tois_ex, List.getLast]
  have h := claim2_substep_time_conservation tois_ex 1 hch hne hlast
  refine ⟨h.1, ?_⟩
  rw [h.2]
  norm_num [tois_ex, List.getLast]

/-- C4: a pair whose two bodies both have zero inverse mass never reaches the
contact resolver: the time-stepping loop skips such pairs before querying
narrowphase, so the collected contacts list is unchanged when both-infinite
pairs are removed from the pair list, and, when the narrowphase collaborator
stamps contacts with the queried handles and inverse masses are nonnegative,
every collected contact refers to bodies that are not both infinite-mass and
whose total inverse mass, the divisor of the positional correction, is
strictly positive. -/
theorem claim4_infinite_mass_pair_filtered (bodies : List Body)
    (intersect : Nat → Body → Nat → Body → ℚ → Option Contact)
    (pairs : List (Nat × Nat)) (dt : ℚ)
    (hI : ∀ ha a hb b ct, intersect ha a hb b dt = some ct →
            ct.handle_a = ha ∧ ct.handle_b = hb)
    (hm : ∀ bd ∈ bodies, 0 ≤ bd.inv_mass) :
    (∀ ct ∈ Scene.narrowphase_contacts bodies intersect pairs dt,
        ¬((bodies.getD ct.handle_a Scene.default_body).has_infinite_mass ∧
            (bodies.getD ct.handle_b Scene.default_body).has_infinite_mass)
        ∧ 0 < ResolveContact.total_inv_mass
              (bodies.getD ct.handle_a Scene.default_body)
              (bodies.getD ct.handle_b Scene.default_body))
    ∧ Scene.narrowphase_contacts bodies intersect pairs dt
      = Scene.narrowphase_contacts bodies intersect
          (pairs.filter (fun p =>
            decide ¬((bodies.getD p.1 Scene.default_body).has_infinite_mass ∧
              (bodies.getD p.2 Scene.default_body).has_infinite_mass))) dt := by
  constructor
  · intro ct hct
    have hP := Scene.narrowphase_go_not_both_infinite bodies intersect dt hI pairs []
      (by intro ct2 hct2; exact absurd hct2 (List.not_mem_nil ct2)) ct hct
    refine ⟨hP, ?_⟩
    have hna : 0 ≤ (bodies.getD ct.handle_a Scene.default_body).inv_mass :=
      Scene.getD_inv_mass_nonneg bodies hm ct.handle_a
    have hnb : 0 ≤ (bodies.getD ct.handle_b Scene.default_body).inv_mass :=
      Scene.getD_inv_mass_nonneg bodies hm ct.handle_b
    unfold ResolveContact.total_inv_mass
    simp only [Body.has_infinite_mass] at hP
    rw [not_and_or] at hP
    rcases hP with hA | hB
    · have : 0 < (bodies.getD ct.handle_a Scene.default_body).inv_mass :=
        lt_of_le_of_ne hna (Ne.symm hA)
      linarith
    · have : 0 < (bodies.getD ct.handle_b Scene.default_body).inv_mass :=
        lt_of_le_of_ne hnb (Ne.symm hB)
      linarith
  · exact Scene.narrowphase_go_filter bodies intersect dt pairs []

/-- C4 witness: for the arena of one static and one dynamic body, the
handle-stamping narrowphase and the single pair, the collected contact refers
to bodies that are not both infinite-mass and has a strictly positive total
inverse mass. -/
theorem claim4_witness :
    ¬((bodies_ex.getD contact_ex.handle_a Scene.default_body).has_infinite_mass ∧
        (bodies_ex.getD contact_ex.handle_b Scene.default_body).has_infinite_mass)
    ∧ 0 < ResolveContact.total_inv_mass
          (bodies_ex.getD contact_ex.handle_a Scene.default_body)
          (bodies_ex.getD contact_ex.handle_b Scene.default_body) :=
  (claim4_infinite_mass_pair_filtered bodies_ex intersect_ex pairs_ex 1
      (fun ha a hb b ct h => by
        injection h with h2
        subst h2
        exact ⟨rfl, rfl⟩)
      (by
        intro bd hbd
        simp only [bodies_ex, List.mem_cons, List.not_mem_nil, or_false] at hbd
        rcases hbd with rfl | rfl
        · norm_num [static_box]
        · norm_num [dyn_box])).1
    contact_ex
    (by
      show contact_ex ∈ Scene.narrowphase_contacts bodies_ex intersect_ex pairs_ex 1
      norm_num [Scene.narrowphase_contacts, Scene.narrowphase_step, pairs_ex,
        bodies_ex, intersect_ex, contact_ex, static_box, dyn_box,
        Body.has_infinite_mass, Scene.default_body])

/-- C5: after pre_solve of a penetration constraint, row 0 of the 3 by 12
Jacobian is the block row [-n, ra x (-n), n, rb x n], where n is the stored
local-space normal rotated into world space by the orientation of body A and
ra, rb are the world anchor offsets from each centre of mass; rows 1 and 2
hold the tangential patterns [-t, ra x (-t), t, rb x t] for the orthonormal
pair t derived from the normal and rotated to world space, exactly when the
combined friction coefficient, the product of the two friction values, is
positive, and stay zero otherwise. -/
theorem claim5_jacobian_rows (cp : ConstraintPenetration) (config : ConstraintConfig)
    (a b : Body) (dt : ℚ) :
    ((cp.pre_solve config a b dt).1.jacobian.row0
      = ⟨-(a.orientation.rotate cp.normal),
         (a.local_to_world config.anchor_a - a.centre_of_mass_world).cross
           (-(a.orientation.rotate cp.normal)),
         a.orientation.rotate cp.normal,
         (b.local_to_world config.anchor_b - b.centre_of_mass_world).cross
           (a.orientation.rotate cp.normal)⟩)
    ∧ ((cp.pre_solve config a b dt).1.jacobian.row1
      = if 0 < a.friction * b.friction then
          ⟨-(a.orientation.rotate (any_orthonormal_pair cp.normal).1),
           (a.local_to_world config.anchor_a - a.centre_of_mass_world).cross
             (-(a.orientation.rotate (any_orthonormal_pair cp.normal).1)),
           a.orientation.rotate (any_orthonormal_pair cp.normal).1,
           (b.local_to_world config.anchor_b - b.centre_of_mass_world).cross
             (a.orientation.rotate (any_orthonormal_pair cp.normal).1)⟩
        else Row12.zero)
    ∧ ((cp.pre_solve config a b dt).1.jacobian.row2
      = if 0 < a.friction * b.friction then
          ⟨-(a.orientation.rotate (any_orthonormal_pair cp.normal).2),
           (a.local_to_world config.anchor_a - a.centre_of_mass_world).cross
             (-(a.orientation.rotate (any_orthonormal_pair cp.normal).2)),
           a.orientation.rotate (any_orthonormal_pair cp.normal).2,
           (b.local_to_world config.anchor_b - b.centre_of_mass_world).cross
             (a.orientation.rotate (any_orthonormal_pair cp.normal).2)⟩
        else Row12.zero) := by
  have hjac : (cp.pre_solve config a b dt).1.jacobian
      = cp.pre_solve_jacobian config a b := rfl
  rw [hjac]
  unfold ConstraintPenetration.pre_solve_jacobian ConstraintPenetration.pre_solve_friction
  by_cases hf : 0 < a.friction * b.friction
  · rw [if_pos hf, if_pos hf, if_pos hf]
    exact ⟨rfl, rfl, rfl⟩
  · rw [if_neg hf, if_neg hf, if_neg hf]
    exact ⟨rfl, rfl, rfl⟩

/-- C6: pre_solve applies the warm-start impulse, the transposed freshly
rebuilt Jacobian applied to the cached Lagrange multipliers, to the two bodies
exactly once, leaves the cached multiplier vector unchanged, and a second
pre_solve without an intervening solve applies the same cached impulse vector
once more, not twice in one call: after two calls the bodies carry exactly two
applications of the one warm-start impulse vector. -/
theorem claim6_warm_start_once (cp : ConstraintPenetration) (config : ConstraintConfig)
    (a b : Body) (dt : ℚ) :
    ((cp.pre_solve config a b dt).2
      = apply_impulses a b
          ((cp.pre_solve config a b dt).1.jacobian.transposeMulVec cp.cached_lambda))
    ∧ ((cp.pre_solve config a b dt).1.cached_lambda = cp.cached_lambda)
    ∧ (((cp.pre_solve config a b dt).1.pre_solve config
          (cp.pre_solve config a b dt).2.1 (cp.pre_solve config a b dt).2.2 dt).2
      = apply_impulses
          (apply_impulses a b (cp.warm_start_impulses config a b)).1
          (apply_impulses a b (cp.warm_start_impulses config a b)).2
          (cp.warm_start_impulses config a b)) := by
  refine ⟨rfl, rfl, ?_⟩
  rw [ConstraintPenetration.pre_solve_bodies_eq (cp.pre_solve config a b dt).1 config
      (cp.pre_solve config a b dt).2.1 (cp.pre_solve config a b dt).2.2 dt,
    ConstraintPenetration.warm_start_impulses_stable cp config a b dt,
    ConstraintPenetration.pre_solve_bodies_eq cp config a b dt]

/-- C7: after pre_solve with step duration dt, the stored Baumgarte bias
equals beta times min 0 of ((anchorB minus anchorA) dot n plus slop), divided
by dt, with beta one-quarter and slop two-hundredths, the anchors taken to
world space and n the world-space normal; for positive dt the bias is never
positive. -/
theorem claim7_baumgarte_bias (cp : ConstraintPenetration) (config : ConstraintConfig)
    (a b : Body) (dt : ℚ) :
    ((cp.pre_solve config a b dt).1.baumgarte
      = 0.25 * min 0 ((b.local_to_world config.anchor_b
            - a.local_to_world config.anchor_a).dot (a.orientation.rotate cp.normal)
          + 0.02) / dt)
    ∧ (0 < dt → (cp.pre_solve config a b dt).1.baumgarte ≤ 0) := by
  have heq : (cp.pre_solve config a b dt).1.baumgarte
      = 0.25 * min 0 ((b.local_to_world config.anchor_b
            - a.local_to_world config.anchor_a).dot (a.orientation.rotate cp.normal)
          + 0.02) / dt := rfl
  refine ⟨heq, ?_⟩
  intro hdt
  rw [heq]
  have hmin : min 0 ((b.local_to_world config.anchor_b
        - a.local_to_world config.anchor_a).dot (a.orientation.rotate cp.normal)
      + 0.02) ≤ 0 := min_le_left _ _
  have hnum : (0.25 : ℚ) * min 0 ((b.local_to_world config.anchor_b
        - a.local_to_world config.anchor_a).dot (a.orientation.rotate cp.normal)
      + 0.02) ≤ 0 := by linarith
  exact div_nonpos_iff.mpr (Or.inr ⟨hnum, le_of_lt hdt⟩)

/-- C7 witness: with the zero-initialised constraint, the example config, the
two scene boxes and unit step duration, the stored bias is nonpositive. -/
theorem claim7_witness :
    (0 : ℚ) < 1
    ∧ (ConstraintPenetration.new.pre_solve config_ex scene_box_a scene_box_b 1).1.baumgarte
        ≤ 0 :=
  ⟨by norm_num,
   (claim7_baumgarte_bias ConstraintPenetration.new config_ex scene_box_a scene_box_b 1).2
     (by norm_num)⟩
